import Mathlib

/-!
Verification of the Memora.dev decision-engine specification against the
repository sources.  The repository ships a Next.js client
(`client/src/...`) together with design documents; the backend engine
(confidence scorer, knowledge-graph manager, validation workflow, query
facade) is not present among the sources, only its TypeScript interface
declarations and HTTP wrappers.  Engine-side definitions below are
therefore modelled from the specification text, as marked in their doc
comments; client-side definitions are translated directly from the
TypeScript sources.

Floats are embedded as rationals (ℚ); JavaScript epoch-millisecond
timestamps as integers.
-/

namespace Memora

/-- Modelled from the spec: the fixed five-key factor mapping of a
ConfidenceScore (spec §3, "ConfidenceScore").  The scorer itself is not in
the client sources; the TypeScript interface `Decision.confidence_factors`
(client/src/services/decisions.ts, lines 12-19) declares exactly these five
factor keys.  The parameter `α` is ℚ for factor values and weights and
String for the per-factor free-text explanations. -/
structure FactorMap (α : Type) where
  evidence_quality : α
  evidence_quantity : α
  participant_authority : α
  temporal_consistency : α
  outcome_validation : α
  deriving DecidableEq, Repr

/-- Modelled from the spec: ConfidenceScore attached 1:1 to a decision
version (spec §3): `overall` in [0,1], a factors mapping, a parallel
weights mapping, and a free-text explanation per factor. -/
structure ConfidenceScore where
  overall : ℚ
  factors : FactorMap ℚ
  weights : FactorMap ℚ
  explanations : FactorMap String
  deriving DecidableEq, Repr

/-- Modelled from the spec: clamp to [0,1] (spec §4.4,
"overall = clamp(Σ weight·factor, 0, 1)"). -/
def clamp01 (x : ℚ) : ℚ := max 0 (min 1 x)

/-- Modelled from the spec: the weighted sum Σ weight·factor over the five
confidence factors (spec §4.4). -/
def weightedSum (w f : FactorMap ℚ) : ℚ :=
  w.evidence_quality * f.evidence_quality
    + w.evidence_quantity * f.evidence_quantity
    + w.participant_authority * f.participant_authority
    + w.temporal_consistency * f.temporal_consistency
    + w.outcome_validation * f.outcome_validation

/-- Sum of the five weights, used to state the "weights sum to 1.0"
invariant (spec §3). -/
def weightTotal (w : FactorMap ℚ) : ℚ :=
  w.evidence_quality + w.evidence_quantity + w.participant_authority
    + w.temporal_consistency + w.outcome_validation

/-- Membership in the unit interval [0,1]. -/
def inUnit (x : ℚ) : Prop := 0 ≤ x ∧ x ≤ 1

/-- All five factor values lie in [0,1]. -/
def factorsInUnit (f : FactorMap ℚ) : Prop :=
  inUnit f.evidence_quality ∧ inUnit f.evidence_quantity
    ∧ inUnit f.participant_authority ∧ inUnit f.temporal_consistency
    ∧ inUnit f.outcome_validation

/-- Modelled from the spec: the Confidence Scorer's `score` output (spec
§4.4) — overall is the clamped weighted sum of the five factors, and the
factor and weight mappings are recorded alongside it.  The scorer component
is absent from the client sources. -/
def score (w : FactorMap ℚ) (expl : FactorMap String) (f : FactorMap ℚ) :
    ConfidenceScore :=
  { overall := clamp01 (weightedSum w f)
    factors := f
    weights := w
    explanations := expl }

/-- Modelled from the spec: the default factor weights of spec §4.4 —
evidence_quality 0.30, evidence_quantity 0.20, participant_authority 0.25,
temporal_consistency 0.15, outcome_validation 0.10. -/
def defaultWeights : FactorMap ℚ :=
  { evidence_quality := 3/10
    evidence_quantity := 2/10
    participant_authority := 1/4
    temporal_consistency := 3/20
    outcome_validation := 1/10 }

/-- Platform enum of the data model (spec §3, EvidenceItem: github | gitlab
| slack | jira); the same four platforms appear in the activity page's
platform filter (client/src/app/dashboard/activity/page.tsx). -/
inductive Platform where
  | github
  | gitlab
  | slack
  | jira
  deriving DecidableEq, Repr

/-- String name of a platform, as used in external identifiers. -/
def Platform.name : Platform → String
  | .github => "github"
  | .gitlab => "gitlab"
  | .slack => "slack"
  | .jira => "jira"

/-- Source-type enum of an EvidenceItem (spec §3). -/
inductive SourceType where
  | pr_comment
  | commit
  | review
  | code_diff
  | chat_message
  | ticket_update
  deriving DecidableEq, Repr

/-- EvidenceItem — one atomic unit of observed activity (spec §3); the
TypeScript `Evidence` interface (client/src/services/decisions.ts, lines
36-44) declares the same fields on the client side. -/
structure EvidenceItem where
  source_type : SourceType
  source_id : String
  content : String
  author : String
  timestamp : Nat
  platform : Platform
  url : Option String
  deriving DecidableEq, Repr

/-- IngestionEvent supplied by an external adapter (spec §6): fields
`platform`, `timestamp` and `content` are required by the normalizer and
modelled as optional so that their absence is representable. -/
structure IngestionEvent where
  platform : Option Platform
  event_type : String
  timestamp : Option Nat
  author : String
  content : Option String
  source_id : String
  deriving DecidableEq, Repr

/-- Error raised on a malformed ingestion event (spec §7). -/
inductive NormalizeError where
  | malformedEvent
  deriving DecidableEq, Repr

/-- Modelled from the spec: the deterministic event_type → source_type
mapping of the Evidence Normalizer (spec §4.1); the event-type names are
the ones the activity page renders
(client/src/app/dashboard/activity/page.tsx, EVENT_ICONS). -/
def mapEventType (t : String) : SourceType :=
  if t = "comment" ∨ t = "pr_comment" then .pr_comment
  else if t = "push" ∨ t = "commit" then .commit
  else if t = "review_submitted" ∨ t = "pr_merged" then .review
  else if t = "code_diff" then .code_diff
  else if t = "issue_created" ∨ t = "issue_updated" then .ticket_update
  else .chat_message

/-- Modelled from the spec: the Evidence Normalizer `normalize(raw_event)`
(spec §4.1) — absent from the client sources.  It fails with
MalformedEventError when `platform`, `timestamp` or `content` is missing,
and otherwise builds an EvidenceItem whose `source_id` is derived
deterministically from the event's platform, event type and external
identifier. -/
def normalize (e : IngestionEvent) : Except NormalizeError EvidenceItem :=
  match e.platform, e.timestamp, e.content with
  | some p, some ts, some c =>
    Except.ok
      { source_type := mapEventType e.event_type
        source_id := p.name ++ ":" ++ e.event_type ++ ":" ++ e.source_id
        content := c
        author := e.author
        timestamp := ts
        platform := p
        url := none }
  | _, _, _ => Except.error .malformedEvent

/-- Decision lifecycle states (spec §4.5; design.md DecisionStatus lists
inferred, validated, disputed, superseded, archived, and the state machine
adds pending_validation). -/
inductive DecisionStatus where
  | inferred
  | validated
  | pending_validation
  | disputed
  | superseded
  | archived
  deriving DecidableEq, Repr

/-- ValidationTask states (spec §3: pending | in_review | resolved |
escalated). -/
inductive TaskStatus where
  | pending
  | in_review
  | resolved
  | escalated
  deriving DecidableEq, Repr

/-- ValidationTask — work item for human review (spec §3). -/
structure ValidationTask where
  task_id : String
  decision_id : String
  version : Nat
  assigned_reviewer : Option String
  created_at : Nat
  due_at : Nat
  priority : Nat
  status : TaskStatus
  resolution_reason : Option String
  deriving DecidableEq, Repr

/-- DecisionEntity — the central record (spec §3); the client declares the
same shape in the TypeScript `Decision` / `DecisionDetail` interfaces
(client/src/services/decisions.ts, lines 3-34). -/
structure DecisionEntity where
  decision_id : String
  version : Nat
  title : String
  description : String
  rationale : String
  alternatives_considered : List String
  intent : List EvidenceItem
  execution : List EvidenceItem
  authority : List EvidenceItem
  outcomes : List EvidenceItem
  confidence : ConfidenceScore
  status : DecisionStatus
  participants : List String
  tags : List String
  repository : String
  created_at : Nat
  updated_at : Nat
  related_decision_ids : List String
  superseded_by : Option String
  supersedes : Option String
  deriving DecidableEq, Repr

/-- Engine configuration surface (spec §6): validation threshold (default
0.7) and task due window (default 1 hour). -/
structure EngineConfig where
  validation_threshold : ℚ
  task_due_window : Nat
  deriving DecidableEq, Repr

/-- Default configuration (spec §6): threshold 0.7, due window 3600
seconds. -/
def defaultConfig : EngineConfig :=
  { validation_threshold := 7/10, task_due_window := 3600 }

/-- Modelled from the spec: the Validation Workflow Engine's reaction to a
newly created or versioned decision (spec §4.5) — absent from the client
sources.  If `confidence.overall < threshold`, exactly one pending
ValidationTask due within the configured window is created and the decision
transitions to `pending_validation`; otherwise nothing is created. -/
def processNewDecision (cfg : EngineConfig) (d : DecisionEntity) (now : Nat) :
    DecisionEntity × List ValidationTask :=
  if d.confidence.overall < cfg.validation_threshold then
    ({ d with status := .pending_validation },
     [{ task_id := d.decision_id ++ ":v" ++ toString d.version
        decision_id := d.decision_id
        version := d.version
        assigned_reviewer := none
        created_at := now
        due_at := now + cfg.task_due_window
        priority := 1
        status := .pending
        resolution_reason := none }])
  else (d, [])

/-- Reviewer feedback outcome, translated from the TypeScript union type
`status: "validated" | "disputed"` of `validateDecision`
(client/src/services/decisions.ts, lines 71-77): these are the only two
values the validation operation accepts. -/
inductive FeedbackStatus where
  | validated
  | disputed
  deriving DecidableEq, Repr

/-- Modelled from the spec: applying reviewer feedback (spec §4.5) — the
backend handler of POST /decisions/id/validate is absent from the sources.
Approval moves the decision to `validated`; rejection moves it to
`disputed` with the rejection reason recorded; the task is `resolved`
either way. -/
def applyFeedback (fb : FeedbackStatus) (comment : Option String)
    (d : DecisionEntity) (t : ValidationTask) :
    DecisionEntity × ValidationTask :=
  match fb with
  | .validated =>
    ({ d with status := .validated }, { t with status := .resolved })
  | .disputed =>
    ({ d with status := .disputed },
     { t with status := .resolved, resolution_reason := comment })

/-- Modelled from the spec: the stored record of one decision — its current
version, the retained earlier versions and the audit history (spec §3,
"earlier versions are retained, never deleted"). -/
structure DecisionRecord where
  current : DecisionEntity
  versions : List DecisionEntity
  history : List String
  deriving DecidableEq, Repr

/-- Modelled from the spec: the server-side handler of DELETE /decisions/id
(reached through `deleteDecision` in client/src/services/decisions.ts,
lines 83-85) is absent from the sources; per spec §3 a deletion request
only transitions the status to `archived` and retains everything else. -/
def deleteDecision (r : DecisionRecord) : DecisionRecord :=
  { r with current := { r.current with status := .archived } }

/-- Relationship types of the knowledge graph (spec §3: depends_on |
conflicts_with | extends | reverts) together with the inverse names the
bidirectional-edge invariant introduces (e.g. depends_on ↔
depended_on_by).  The keyword clash forces `extends_` for "extends". -/
inductive RelType where
  | depends_on
  | depended_on_by
  | conflicts_with
  | extends_
  | extended_by
  | reverts
  | reverted_by
  deriving DecidableEq, Repr

/-- Modelled from the spec: the type-appropriate inverse mapping on
relationship types (spec §3); conflicts_with is its own inverse. -/
def RelType.inv : RelType → RelType
  | .depends_on => .depended_on_by
  | .depended_on_by => .depends_on
  | .conflicts_with => .conflicts_with
  | .extends_ => .extended_by
  | .extended_by => .extends_
  | .reverts => .reverted_by
  | .reverted_by => .reverts

/-- DecisionRelationship — directed, typed edge (spec §3). -/
structure RelEdge where
  source_decision_id : String
  target_decision_id : String
  relationship_type : RelType
  strength : ℚ
  evidence : List EvidenceItem
  deriving DecidableEq, Repr

/-- The inverse of an edge: endpoints swapped, type inverted, strength and
evidence unchanged. -/
def invEdge (e : RelEdge) : RelEdge :=
  { e with
    source_decision_id := e.target_decision_id
    target_decision_id := e.source_decision_id
    relationship_type := e.relationship_type.inv }

/-- The knowledge graph's edge store. -/
abbrev Graph := List RelEdge

/-- Modelled from the spec: the Knowledge Graph Manager's `link` operation
(spec §4.6) — absent from the client sources; it always writes both
directions atomically. -/
def link (a b : String) (t : RelType) (s : ℚ) (ev : List EvidenceItem)
    (g : Graph) : Graph :=
  { source_decision_id := a, target_decision_id := b
    relationship_type := t, strength := s, evidence := ev } ::
  { source_decision_id := b, target_decision_id := a
    relationship_type := t.inv, strength := s, evidence := ev } :: g

/-- Whether an edge has the given endpoints and type. -/
def edgeMatches (a b : String) (t : RelType) (e : RelEdge) : Bool :=
  decide (e.source_decision_id = a ∧ e.target_decision_id = b
    ∧ e.relationship_type = t)

/-- Modelled from the spec: removing a relationship removes both directions
together (spec §3, "both are created/removed together"). -/
def unlink (a b : String) (t : RelType) (g : Graph) : Graph :=
  g.filter (fun e => !(edgeMatches a b t e || edgeMatches b a t.inv e))

/-- The bidirectional-edge invariant (spec §3): every stored edge has its
inverse edge in the graph (same strength and evidence, inverted type,
swapped endpoints). -/
def symmetricGraph (g : Graph) : Prop := ∀ e ∈ g, invEdge e ∈ g

/-- One entry of a QueryResult (spec §4.7): a decision annotated with
relevance, confidence and the evidence trace justifying its inclusion. -/
structure QueryResultEntry where
  decision : DecisionEntity
  relevance : ℚ
  confidence : ℚ
  trace : List EvidenceItem
  deriving DecidableEq, Repr

/-- QueryResult returned by the Query Facade (spec §4.7). -/
structure QueryResult where
  results : List QueryResultEntry
  deriving DecidableEq, Repr

/-- All evidence references of a decision, across its four buckets. -/
def evidenceOf (d : DecisionEntity) : List EvidenceItem :=
  d.intent ++ d.execution ++ d.authority ++ d.outcomes

/-- Modelled from the spec: the Query Facade `answer` (spec §4.7) — absent
from the client sources (the client only streams the reply,
client/src/services/chat.ts).  Semantic candidates and graph-expanded
context are pooled, each decision is annotated with its confidence and the
evidence trace assembled from its buckets, and a decision whose trace would
be empty is never returned. -/
def answer (candidates : List (DecisionEntity × ℚ))
    (related : List DecisionEntity) : QueryResult :=
  let pool := candidates ++ related.map (fun d => (d, 0))
  { results :=
      (pool.filter (fun p => !(evidenceOf p.1).isEmpty)).map
        (fun p =>
          { decision := p.1
            relevance := p.2
            confidence := p.1.confidence.overall
            trace := evidenceOf p.1 }) }

/-- ConnectedResource, translated from client/src/services/workspaces.ts,
lines 3-9. -/
structure ConnectedResource where
  platform : String
  resource_id : String
  resource_name : String
  resource_type : String
  connected_at : String
  deriving DecidableEq, Repr

/-- WorkspaceMember, translated from client/src/services/workspaces.ts,
lines 11-15. -/
structure WorkspaceMember where
  user_id : String
  role : String
  joined_at : String
  deriving DecidableEq, Repr

/-- Workspace, translated from client/src/services/workspaces.ts, lines
17-26. -/
structure Workspace where
  workspace_id : String
  name : String
  description : String
  owner_id : String
  resources : List ConnectedResource
  members : List WorkspaceMember
  created_at : String
  updated_at : String
  deriving DecidableEq, Repr

/-- The state the WorkspaceProvider keeps (WorkspaceContext source,
src/unnamed/part_002): the workspace list, the active workspace, the
onboarding flag, and the `memora_active_workspace` key of localStorage. -/
structure WorkspaceState where
  workspaces : List Workspace
  activeWorkspace : Option Workspace
  needsOnboarding : Bool
  savedId : Option String
  deriving DecidableEq, Repr

/-- The provider's initial state (useState initialisers of
WorkspaceProvider): empty list, no active workspace, needsOnboarding
false; localStorage may hold anything from a previous session. -/
def initialWorkspaceState (saved : Option String) : WorkspaceState :=
  { workspaces := []
    activeWorkspace := none
    needsOnboarding := false
    savedId := saved }

/-- refreshWorkspaces, translated from the WorkspaceContext source
(src/unnamed/part_002, lines 34-64).  `user` is whether a user is logged
in (early return otherwise); `fetched` is the workspace list on API
success (`res.data.workspaces || []`) and `none` when the request threw
(the catch block leaves all state unchanged). -/
def refreshWorkspaces (user : Bool) (fetched : Option (List Workspace))
    (s : WorkspaceState) : WorkspaceState :=
  if user then
    match fetched with
    | none => s
    | some wsList =>
      match wsList with
      | [] =>
        { s with workspaces := [], needsOnboarding := true
                 activeWorkspace := none }
      | w0 :: rest =>
        match (w0 :: rest).find? (fun w => s.savedId == some w.workspace_id) with
        | some saved =>
          { s with workspaces := w0 :: rest, needsOnboarding := false
                   activeWorkspace := some saved }
        | none =>
          { s with workspaces := w0 :: rest, needsOnboarding := false
                   activeWorkspace := some w0
                   savedId := some w0.workspace_id }
  else s

/-- createWorkspace (success path), translated from the WorkspaceContext
source (src/unnamed/part_002, lines 79-86): the created workspace is
prepended to the list, becomes active (which also writes it to
localStorage via setActiveWorkspace), and needsOnboarding is cleared. -/
def createWorkspace (ws : Workspace) (s : WorkspaceState) : WorkspaceState :=
  { workspaces := ws :: s.workspaces
    activeWorkspace := some ws
    needsOnboarding := false
    savedId := some ws.workspace_id }

/-- The active workspace the claim expects for a non-empty list: the one
saved in localStorage if still present, otherwise the first element. -/
def expectedActive (l : List Workspace) (saved : Option String) :
    Option Workspace :=
  match l.find? (fun w => saved == some w.workspace_id) with
  | some w => some w
  | none => l.head?

/-- The invariant claimed for the workspace context: needsOnboarding holds
exactly when the list is empty, and a non-empty list has an active
workspace that is a member of the list and equals the expected one. -/
def wsInvariant (s : WorkspaceState) : Prop :=
  (s.needsOnboarding = true ↔ s.workspaces = [])
    ∧ (s.workspaces ≠ [] →
        s.activeWorkspace = expectedActive s.workspaces s.savedId
          ∧ ∃ a, s.activeWorkspace = some a ∧ a ∈ s.workspaces)

/-- Value of a request parameter: the TypeScript params records are
`Record<string, string | number>`. -/
inductive ParamValue where
  | str (s : String)
  | num (n : Nat)
  deriving DecidableEq, Repr

/-- JavaScript truthiness of an optional string argument: absent
(undefined) and the empty string are falsy, every other string truthy. -/
def truthyStr : Option String → Bool
  | none => false
  | some s => !(s == "")

/-- The params record built by `getDecisions`
(client/src/services/decisions.ts, lines 54-65): `{ limit }`, then
`status` when truthy, then `repository` when truthy. -/
def getDecisionsParams (status repository : Option String) (limit : Nat) :
    List (String × ParamValue) :=
  let ps := [("limit", ParamValue.num limit)]
  let ps := match status with
    | some s => if s == "" then ps else ps ++ [("status", ParamValue.str s)]
    | none => ps
  match repository with
  | some r => if r == "" then ps else ps ++ [("repository", ParamValue.str r)]
  | none => ps

/-- The default limit of `getDecisions` and `getEvents` when the caller
passes no limit argument (`limit: number = 50`). -/
def defaultLimit : Nat := 50

/-- The params record built by `getEvents` (src/unnamed/part_003, lines
13-20): `{ limit }`, then `platform` when truthy. -/
def getEventsParams (platform : Option String) (limit : Nat) :
    List (String × ParamValue) :=
  let ps := [("limit", ParamValue.num limit)]
  match platform with
  | some p => if p == "" then ps else ps ++ [("platform", ParamValue.str p)]
  | none => ps

/-- timeAgo, translated from the dashboard home page
(client/src/app/dashboard/page.tsx, lines 24-35).  Both arguments are
epoch milliseconds; `Math.floor` of a real division of integers is
integer floor division (Int.fdiv). -/
def timeAgoHome (nowMs tsMs : Int) : String :=
  let seconds := Int.fdiv (nowMs - tsMs) 1000
  if seconds < 60 then "just now"
  else
    let minutes := Int.fdiv seconds 60
    if minutes < 60 then toString minutes ++ "m ago"
    else
      let hours := Int.fdiv minutes 60
      if hours < 24 then toString hours ++ "h ago"
      else
        let days := Int.fdiv hours 24
        toString days ++ "d ago"

/-- timeAgo, translated from the activity page
(client/src/app/dashboard/activity/page.tsx, lines 41-52); kept as its own
definition because the source duplicates the function. -/
def timeAgoActivity (nowMs tsMs : Int) : String :=
  let seconds := Int.fdiv (nowMs - tsMs) 1000
  if seconds < 60 then "just now"
  else
    let minutes := Int.fdiv seconds 60
    if minutes < 60 then toString minutes ++ "m ago"
    else
      let hours := Int.fdiv minutes 60
      if hours < 24 then toString hours ++ "h ago"
      else
        let days := Int.fdiv hours 24
        toString days ++ "d ago"

/-- Sample factor values, all within [0,1], used by witnesses; 0/1 values
keep the arithmetic reducible. -/
def sampleFactors : FactorMap ℚ :=
  { evidence_quality := 1
    evidence_quantity := 0
    participant_authority := 1
    temporal_consistency := 0
    outcome_validation := 1 }

/-- Weight assignment putting all weight on evidence quality; sums to 1
and keeps witness arithmetic reducible. -/
def unitWeights : FactorMap ℚ :=
  { evidence_quality := 1
    evidence_quantity := 0
    participant_authority := 0
    temporal_consistency := 0
    outcome_validation := 0 }

/-- Sample per-factor explanations, used by witnesses. -/
def sampleExplanations : FactorMap String :=
  { evidence_quality := "specific, code-referencing items"
    evidence_quantity := "three supporting artifacts"
    participant_authority := "two senior reviewers"
    temporal_consistency := "implemented shortly after discussion"
    outcome_validation := "no outcome evidence yet" }

/-- RelType.inv is an involution, so inverting twice yields the original
relationship type. -/
theorem RelType.inv_inv (t : RelType) : t.inv.inv = t := by
  cases t <;> rfl

/-- Claim C1: every confidence score produced by the scorer has
`overall` in [0,1] equal to the clamped weighted sum of the five fixed
factors, the factor mapping carries exactly the five fixed keys
(structure eta over FactorMap), and the weights used sum to 1.0. -/
theorem confidence_score_invariant (w : FactorMap ℚ)
    (expl : FactorMap String) (f : FactorMap ℚ)
    (hw : weightTotal w = 1) (hf : factorsInUnit f) :
    inUnit (score w expl f).overall
      ∧ (score w expl f).overall = clamp01 (weightedSum w f)
      ∧ (score w expl f).factors =
          { evidence_quality := f.evidence_quality
            evidence_quantity := f.evidence_quantity
            participant_authority := f.participant_authority
            temporal_consistency := f.temporal_consistency
            outcome_validation := f.outcome_validation }
      ∧ factorsInUnit (score w expl f).factors
      ∧ weightTotal (score w expl f).weights = 1 := by
  refine ⟨⟨?_, ?_⟩, rfl, rfl, hf, hw⟩
  · exact le_max_left 0 _
  · exact max_le zero_le_one (min_le_left 1 _)

/-- Witness for C1: the sample weights sum to 1, the sample factors lie
in [0,1], and the resulting overall score is in [0,1]. -/
theorem confidence_score_invariant_witness :
    weightTotal unitWeights = 1 ∧ factorsInUnit sampleFactors
      ∧ inUnit (score unitWeights sampleExplanations sampleFactors).overall :=
  ⟨by simp [weightTotal, unitWeights],
   by simp [factorsInUnit, inUnit, sampleFactors],
   (confidence_score_invariant unitWeights sampleExplanations sampleFactors
      (by simp [weightTotal, unitWeights])
      (by simp [factorsInUnit, inUnit, sampleFactors])).1⟩

/-- Claim C4: applying reviewer feedback admits exactly the two outcomes
of the TypeScript union type — approval makes the decision `validated`,
rejection makes it `disputed` — and the task is `resolved` either way. -/
theorem validate_feedback_two_outcomes :
    ∀ (fb : FeedbackStatus) (c : Option String) (d : DecisionEntity)
      (t : ValidationTask),
      (fb = .validated ∨ fb = .disputed)
        ∧ (applyFeedback fb c d t).2.status = .resolved
        ∧ ((applyFeedback fb c d t).1.status = .validated ↔ fb = .validated)
        ∧ ((applyFeedback fb c d t).1.status = .disputed ↔ fb = .disputed) := by
  intro fb c d t
  cases fb <;> simp [applyFeedback]

/-- Claim C5: a deletion request never hard-deletes — it only sets the
current status to `archived`, while the evidence buckets, retained
versions and history are unchanged. -/
theorem delete_archives_never_removes :
    ∀ r : DecisionRecord,
      (deleteDecision r).current.status = .archived
        ∧ (deleteDecision r).versions = r.versions
        ∧ (deleteDecision r).history = r.history
        ∧ (deleteDecision r).current.intent = r.current.intent
        ∧ (deleteDecision r).current.execution = r.current.execution
        ∧ (deleteDecision r).current.authority = r.current.authority
        ∧ (deleteDecision r).current.outcomes = r.current.outcomes
        ∧ (deleteDecision r).current.decision_id = r.current.decision_id
        ∧ (deleteDecision r).current.version = r.current.version
        ∧ (deleteDecision r).current.confidence = r.current.confidence := by
  intro r
  exact ⟨rfl, rfl, rfl, rfl, rfl, rfl, rfl, rfl, rfl, rfl⟩

/-- Claim C7: normalization is deterministic on identity — two successful
normalizations of the same raw event produce evidence items with the same
source_id. -/
theorem normalize_deterministic_source_id (e : IngestionEvent)
    (x y : EvidenceItem) (hx : normalize e = Except.ok x)
    (hy : normalize e = Except.ok y) : x.source_id = y.source_id := by
  rw [hx] at hy
  rw [Except.ok.inj hy]

/-- Sample ingestion event with all required fields present. -/
def sampleEvent : IngestionEvent :=
  { platform := some .github
    event_type := "pr_comment"
    timestamp := some 1700000000
    author := "alice"
    content := some "switch to DynamoDB for scale"
    source_id := "12345" }

/-- The evidence item `normalize` produces for `sampleEvent`. -/
def sampleNormalized : EvidenceItem :=
  { source_type := .pr_comment
    source_id := "github:pr_comment:12345"
    content := "switch to DynamoDB for scale"
    author := "alice"
    timestamp := 1700000000
    platform := .github
    url := none }

/-- Witness for C7: normalizing the sample event succeeds, and the
theorem applies to the two (identical) runs. -/
theorem normalize_deterministic_source_id_witness :
    normalize sampleEvent = Except.ok sampleNormalized
      ∧ sampleNormalized.source_id = sampleNormalized.source_id :=
  ⟨rfl,
   normalize_deterministic_source_id sampleEvent sampleNormalized
     sampleNormalized rfl rfl⟩

/-- Claim C10: the two duplicated timeAgo implementations are
extensionally equal on every pair of current time and timestamp. -/
theorem timeAgo_duplicates_equal :
    ∀ nowMs tsMs : Int, timeAgoHome nowMs tsMs = timeAgoActivity nowMs tsMs :=
  fun _ _ => rfl

/-- Configuration used by the C2 witness: threshold 1, one-hour due
window. -/
def witnessConfig : EngineConfig :=
  { validation_threshold := 1, task_due_window := 3600 }

/-- Sample confidence score with overall 0, used by witnesses. -/
def sampleScore : ConfidenceScore :=
  { overall := 0
    factors := sampleFactors
    weights := unitWeights
    explanations := sampleExplanations }

/-- Sample low-confidence decision, used by witnesses. -/
def sampleLowDecision : DecisionEntity :=
  { decision_id := "dec-1"
    version := 1
    title := "Switch to DynamoDB"
    description := "Move the persistence layer to DynamoDB"
    rationale := "scale"
    alternatives_considered := ["keep Postgres"]
    intent := [sampleNormalized]
    execution := []
    authority := []
    outcomes := []
    confidence := sampleScore
    status := .inferred
    participants := ["alice"]
    tags := ["storage"]
    repository := "org/repo"
    created_at := 0
    updated_at := 0
    related_decision_ids := []
    superseded_by := none
    supersedes := none }

/-- Claim C2: a decision whose overall confidence is below the validation
threshold gets exactly one pending ValidationTask, due within the
configured window of its creation instant, and its status becomes
pending_validation. -/
theorem low_confidence_creates_validation_task (cfg : EngineConfig)
    (d : DecisionEntity) (now : Nat)
    (h : d.confidence.overall < cfg.validation_threshold) :
    (processNewDecision cfg d now).1.status = .pending_validation
      ∧ (processNewDecision cfg d now).2.length = 1
      ∧ ∀ t ∈ (processNewDecision cfg d now).2,
          t.status = .pending ∧ t.decision_id = d.decision_id
            ∧ t.created_at = now
            ∧ t.due_at = now + cfg.task_due_window := by
  simp [processNewDecision, h]

/-- Witness for C2: the sample decision has confidence 0 below the
threshold 1, so its status becomes pending_validation. -/
theorem low_confidence_creates_validation_task_witness :
    sampleLowDecision.confidence.overall < witnessConfig.validation_threshold
      ∧ (processNewDecision witnessConfig sampleLowDecision 0).1.status
          = .pending_validation :=
  ⟨zero_lt_one,
   (low_confidence_creates_validation_task witnessConfig sampleLowDecision 0
      zero_lt_one).1⟩

/-- Claim C3: linking writes both directions together and unlinking
removes both together, so the bidirectional-edge invariant is preserved by
every completed operation; under the invariant every stored edge has an
inverse edge of the type-appropriate inverse type and equal strength. -/
theorem graph_bidirectional_link_unlink (g : Graph) (hg : symmetricGraph g)
    (a b : String) (t : RelType) (s : ℚ) (ev : List EvidenceItem) :
    symmetricGraph (link a b t s ev g)
      ∧ symmetricGraph (unlink a b t g)
      ∧ ∀ e ∈ g, ∃ e2, e2 ∈ g
          ∧ e2.source_decision_id = e.target_decision_id
          ∧ e2.target_decision_id = e.source_decision_id
          ∧ e2.relationship_type = e.relationship_type.inv
          ∧ e2.strength = e.strength := by
  refine ⟨?_, ?_, ?_⟩
  · intro e he
    simp only [link, List.mem_cons] at he ⊢
    rcases he with rfl | rfl | he
    · right; left; rfl
    · left; simp [invEdge, RelType.inv_inv]
    · right; right; exact hg e he
  · intro e he
    simp only [unlink, List.mem_filter] at he ⊢
    refine ⟨hg e he.1, ?_⟩
    have hp := he.2
    simp only [edgeMatches, invEdge, Bool.not_eq_true', Bool.or_eq_false_iff,
      decide_eq_false_iff_not] at hp ⊢
    obtain ⟨h1, h2⟩ := hp
    constructor
    · rintro ⟨hta, hsb, hti⟩
      exact h2 ⟨hsb, hta, by rw [← hti, RelType.inv_inv]⟩
    · rintro ⟨htb, hsa, hti⟩
      refine h1 ⟨hsa, htb, ?_⟩
      have h3 := congrArg RelType.inv hti
      rwa [RelType.inv_inv, RelType.inv_inv] at h3
  · intro e he
    exact ⟨invEdge e, hg e he, rfl, rfl, rfl, rfl⟩

/-- Witness for C3: the empty graph satisfies the invariant, and linking
two decisions in it preserves it. -/
theorem graph_bidirectional_link_unlink_witness :
    symmetricGraph ([] : Graph)
      ∧ symmetricGraph (link "dec-1" "dec-2" .depends_on 1 [] []) :=
  ⟨fun e he => absurd he (List.not_mem_nil e),
   (graph_bidirectional_link_unlink [] (fun e he => absurd he (List.not_mem_nil e))
      "dec-1" "dec-2" .depends_on 1 []).1⟩

/-- Claim C6: every entry of a query answer carries a non-empty evidence
trace — a decision without evidence backing is never returned. -/
theorem answer_results_have_evidence :
    ∀ (candidates : List (DecisionEntity × ℚ)) (related : List DecisionEntity),
      ((answer candidates related).results.all
        (fun r => !r.trace.isEmpty)) = true := by
  intro cands rel
  simp only [answer, List.all_eq_true, List.mem_map, List.mem_filter]
  rintro r ⟨p, ⟨hp, hpass⟩, rfl⟩
  simpa using hpass

/-- Claim C8 (counterexample): from the provider's initial state (empty
list, needsOnboarding false), a completed refreshWorkspaces call with no
logged-in user leaves the list empty while needsOnboarding stays false, so
the claimed invariant fails after a completed call. -/
theorem workspace_invariant_counterexample :
    ¬ wsInvariant (refreshWorkspaces false none (initialWorkspaceState none)) := by
  intro h
  have h1 := h.1
  simp [refreshWorkspaces, initialWorkspaceState] at h1

/-- Claim C8 (amended): after a refreshWorkspaces call in which a user is
logged in and the workspace fetch succeeds, and after a successful
createWorkspace call, needsOnboarding holds exactly when the list is
empty, and a non-empty list has an active workspace in the list — the
saved one if still present, otherwise the first element. -/
theorem workspace_invariant_success_paths :
    ∀ (l : List Workspace) (s : WorkspaceState) (ws : Workspace),
      wsInvariant (refreshWorkspaces true (some l) s)
        ∧ wsInvariant (createWorkspace ws s) := by
  intro l s ws
  constructor
  · match l with
    | [] =>
      refine ⟨by simp [refreshWorkspaces], ?_⟩
      intro hne
      exact absurd rfl hne
    | w0 :: rest =>
      cases hfind : (w0 :: rest).find?
          (fun w => s.savedId == some w.workspace_id) with
      | none =>
        have heq : refreshWorkspaces true (some (w0 :: rest)) s =
            { s with workspaces := w0 :: rest, needsOnboarding := false
                     activeWorkspace := some w0
                     savedId := some w0.workspace_id } := by
          unfold refreshWorkspaces
          simp [hfind]
        rw [heq]
        refine ⟨by simp, fun _ => ⟨?_, w0, rfl, List.mem_cons_self w0 rest⟩⟩
        simp only [expectedActive]
        rw [List.find?_cons_of_pos _ (by simp)]
      | some saved =>
        have heq : refreshWorkspaces true (some (w0 :: rest)) s =
            { s with workspaces := w0 :: rest, needsOnboarding := false
                     activeWorkspace := some saved } := by
          unfold refreshWorkspaces
          simp [hfind]
        rw [heq]
        refine ⟨by simp, fun _ => ⟨?_, saved, rfl, List.mem_of_find?_eq_some hfind⟩⟩
        simp only [expectedActive]
        rw [hfind]
  · refine ⟨by simp [createWorkspace], fun _ => ⟨?_, ws, rfl, List.mem_cons_self ws _⟩⟩
    simp only [createWorkspace, expectedActive]
    rw [List.find?_cons_of_pos _ (by simp)]

/-- Claim C9: with no limit argument both list calls send limit = 50, and
each optional filter (status and repository for getDecisions, platform for
getEvents) appears in the params exactly when a truthy value was passed
for it. -/
theorem request_params_default_limit_and_filters :
    ∀ (status repository platform : Option String) (limit : Nat),
      (getDecisionsParams status repository defaultLimit).lookup "limit"
          = some (ParamValue.num 50)
        ∧ (getEventsParams platform defaultLimit).lookup "limit"
          = some (ParamValue.num 50)
        ∧ ((getDecisionsParams status repository limit).lookup "status").isSome
          = truthyStr status
        ∧ ((getDecisionsParams status repository limit).lookup
            "repository").isSome = truthyStr repository
        ∧ ((getEventsParams platform limit).lookup "platform").isSome
          = truthyStr platform := by
  intro status repository platform limit
  refine ⟨?_, ?_, ?_, ?_, ?_⟩
  · rcases status with _ | s <;> rcases repository with _ | r
    · simp [getDecisionsParams, defaultLimit, List.lookup]
    · by_cases hr : r = "" <;>
        simp [getDecisionsParams, defaultLimit, List.lookup, hr]
    · by_cases hs : s = "" <;>
        simp [getDecisionsParams, defaultLimit, List.lookup, hs]
    · by_cases hs : s = "" <;> by_cases hr : r = "" <;>
        simp [getDecisionsParams, defaultLimit, List.lookup, hs, hr]
  · rcases platform with _ | p
    · simp [getEventsParams, defaultLimit, List.lookup]
    · by_cases hp : p = "" <;>
        simp [getEventsParams, defaultLimit, List.lookup, hp]
  · rcases status with _ | s <;> rcases repository with _ | r
    · simp [getDecisionsParams, List.lookup, truthyStr]
    · by_cases hr : r = "" <;>
        simp [getDecisionsParams, List.lookup, truthyStr, hr]
    · by_cases hs : s = "" <;>
        simp [getDecisionsParams, List.lookup, truthyStr, hs]
    · by_cases hs : s = "" <;> by_cases hr : r = "" <;>
        simp [getDecisionsParams, List.lookup, truthyStr, hs, hr]
  · rcases status with _ | s <;> rcases repository with _ | r
    · simp [getDecisionsParams, List.lookup, truthyStr]
    · by_cases hr : r = "" <;>
        simp [getDecisionsParams, List.lookup, truthyStr, hr]
    · by_cases hs : s = "" <;>
        simp [getDecisionsParams, List.lookup, truthyStr, hs]
    · by_cases hs : s = "" <;> by_cases hr : r = "" <;>
        simp [getDecisionsParams, List.lookup, truthyStr, hs, hr]
  · rcases platform with _ | p
    · simp [getEventsParams, List.lookup, truthyStr]
    · by_cases hp : p = "" <;>
        simp [getEventsParams, List.lookup, truthyStr, hp]

end Memora
